import Mathlib

/-
  Shallow embedding of the pixel-packing codec of bmd-signal-gen
  (src/cpp/pixel_packing.cpp, src/cpp/draw_image.cpp).

  The destination frame buffer is modelled as a byte-addressed store
  `Nat → Nat`; a 32-bit store through a `uint32_t*` view is modelled as
  four byte writes in little-endian order (the hosts the code targets).
  Source channel buffers are modelled as total functions `Nat → Nat`,
  mirroring the C pointers.  All sample arithmetic is on `Nat`, with the
  C casts made explicit (`% 256` for a `uint8_t` truncation, `min _ 255`
  etc. for the `std::min` clamps).
-/

/-- A byte-addressed destination buffer: address to byte value. -/
abbrev Store := Nat → Nat

/-- Write one byte `v` at address `a`. -/
def wr (d : Store) (a v : Nat) : Store := fun p => if p = a then v else d p

/-- Write a 32-bit word through a `uint32_t*` view on a little-endian
host: the four bytes of `w` land at addresses `a, a+1, a+2, a+3` from
least to most significant. -/
def wr32LE (d : Store) (a w : Nat) : Store :=
  wr (wr (wr (wr d a (w % 256)) (a + 1) (w / 256 % 256))
      (a + 2) (w / 65536 % 256)) (a + 3) (w / 16777216 % 256)

/-- `pack_8bpc_yuv_image` (pixel_packing.cpp lines 57-90): loops rows, and
columns in steps of two (`x += 2`); per iteration clamps the three samples
at `srcIndex = y*width + x` to 255 and, since `x` is always even, writes
`v` then `y_val` at `destIndex = y*rowBytes + x*2` (the odd-pixel branch
of the `if` is unreachable). -/
def pack_8bpc_yuv_image (dest : Store) (srcY srcU srcV : Nat → Nat)
    (width height rowBytes : Nat) : Store :=
  (List.range height).foldl (fun d y =>
    ((List.range ((width + 1) / 2)).map (fun i => 2 * i)).foldl (fun d x =>
      let srcIndex := y * width + x
      let destIndex := y * rowBytes + x * 2
      let y_val := min (srcY srcIndex) 255
      let u := min (srcU srcIndex) 255
      let v := min (srcV srcIndex) 255
      if x % 2 = 0 then
        wr (wr d destIndex v) (destIndex + 1) y_val
      else
        wr (wr d destIndex u) (destIndex + 1) y_val) d) dest

/-- The 32-bit word built by `pack_8bpc_rgb_image` (pixel_packing.cpp lines
126-137): the channel reads go through `uint8_t` locals, hence `% 256`;
BGRA order packs `0xFF<<24 | r<<16 | g<<8 | b`, ARGB order packs
`0xFF<<24 | b<<16 | g<<8 | r`. -/
def pack8_rgb_word (r g b : Nat) (isBGRA : Bool) : Nat :=
  if isBGRA then (0xFF <<< 24) ||| (r <<< 16) ||| (g <<< 8) ||| b
  else (0xFF <<< 24) ||| (b <<< 16) ||| (g <<< 8) ||| r

/-- `pack_8bpc_rgb_image` (pixel_packing.cpp lines 107-145): per pixel,
truncates each sample to `uint8_t` and stores one 32-bit word at word
index `y*(rowBytes/4) + x`. -/
def pack_8bpc_rgb_image (dest : Store) (srcR srcG srcB : Nat → Nat)
    (width height rowBytes : Nat) (isBGRA : Bool) : Store :=
  (List.range height).foldl (fun d y =>
    (List.range width).foldl (fun d x =>
      let srcIndex := y * width + x
      let destIndex := y * (rowBytes / 4) + x
      wr32LE d (4 * destIndex)
        (pack8_rgb_word (srcR srcIndex % 256) (srcG srcIndex % 256)
          (srcB srcIndex % 256) isBGRA)) d) dest

/-- The 32-bit word built by `pack_10bpc_rgb_image` (pixel_packing.cpp
lines 189-191), transcribed field by field:
`(b & 0x000F) << 24 | (b & 0x0300) << 8 | (g & 0x003F) << 18 |
 (g & 0x03C0) << 2 | (r & 0x000F) << 12 | (r & 0x03F0) >> 4`. -/
def pack10_rgb_word (r g b : Nat) : Nat :=
  ((b &&& 0x000F) <<< 24) ||| ((b &&& 0x0300) <<< 8)
    ||| ((g &&& 0x003F) <<< 18) ||| ((g &&& 0x03C0) <<< 2)
    ||| ((r &&& 0x000F) <<< 12) ||| ((r &&& 0x03F0) >>> 4)

/-- One iteration of the inner loop of `pack_10bpc_rgb_image`: clamps the
three samples at `y*width + x` to 1023 and stores the packed word at word
index `y*(rowBytes/4) + x`, i.e. byte address `4*(y*(rowBytes/4) + x)`. -/
def pack10_pixel_write (srcR srcG srcB : Nat → Nat) (width rowBytes y : Nat)
    (d : Store) (x : Nat) : Store :=
  wr32LE d (4 * (y * (rowBytes / 4) + x))
    (pack10_rgb_word (min (srcR (y * width + x)) 1023)
      (min (srcG (y * width + x)) 1023) (min (srcB (y * width + x)) 1023))

/-- `pack_10bpc_rgb_image` (pixel_packing.cpp lines 172-199). -/
def pack_10bpc_rgb_image (dest : Store) (srcR srcG srcB : Nat → Nat)
    (width height rowBytes : Nat) : Store :=
  (List.range height).foldl (fun d y =>
    (List.range width).foldl
      (pack10_pixel_write srcR srcG srcB width rowBytes y) d) dest

/-- `pack_10bpc_yuv_image` (pixel_packing.cpp lines 214-242): per pixel,
clamps the three samples to 1023 and stores
`(u & 0x3FF) | (y & 0x3FF) << 10 | (v & 0x3FF) << 20` at word index
`y*(rowBytes/4) + x`. -/
def pack_10bpc_yuv_image (dest : Store) (srcY srcU srcV : Nat → Nat)
    (width height rowBytes : Nat) : Store :=
  (List.range height).foldl (fun d y =>
    (List.range width).foldl (fun d x =>
      let srcIndex := y * width + x
      let destIndex := y * (rowBytes / 4) + x
      let y_val := min (srcY srcIndex) 1023
      let u := min (srcU srcIndex) 1023
      let v := min (srcV srcIndex) 1023
      wr32LE d (4 * destIndex)
        ((u &&& 0x3FF) ||| ((y_val &&& 0x3FF) <<< 10) ||| ((v &&& 0x3FF) <<< 20))) d) dest

/-- `swizzle_two_12` (pixel_packing.cpp lines 255-263), transcribed:
`((channelA & 0x0F) << 4) | ((channelB & 0xF0) >> 4)`. -/
def swizzle_two_12 (channelA channelB : Nat) : Nat :=
  ((channelA &&& 0x0F) <<< 4) ||| ((channelB &&& 0xF0) >>> 4)

/-- `high_8_of_12` (pixel_packing.cpp lines 273-275): `(channel >> 4) & 0xFF`. -/
def high_8_of_12 (channel : Nat) : Nat := (channel >>> 4) &&& 0xFF

/-- `low_8_of_12` (pixel_packing.cpp lines 285-287): `channel & 0xFF`. -/
def low_8_of_12 (channel : Nat) : Nat := channel &&& 0xFF

/-- `pack_8_12bpc_pixels_into_36_bytes` (pixel_packing.cpp lines 300-365):
the 36 byte assignments, transcribed in source order with `base` standing
for `groupPtr`. -/
def pack_8_12bpc_pixels_into_36_bytes (dest : Store) (base : Nat)
    (r g b : Nat → Nat) : Store :=
  let d := wr dest (base + 3) (low_8_of_12 (r 0))
  let d := wr d (base + 2) (swizzle_two_12 (g 0) (r 0))
  let d := wr d (base + 1) (high_8_of_12 (g 0))
  let d := wr d (base + 0) (low_8_of_12 (b 0))
  let d := wr d (base + 7) (swizzle_two_12 (r 1) (b 0))
  let d := wr d (base + 6) (high_8_of_12 (r 1))
  let d := wr d (base + 5) (low_8_of_12 (g 1))
  let d := wr d (base + 4) (swizzle_two_12 (b 1) (g 1))
  let d := wr d (base + 11) (high_8_of_12 (b 1))
  let d := wr d (base + 10) (low_8_of_12 (r 2))
  let d := wr d (base + 9) (swizzle_two_12 (g 2) (r 2))
  let d := wr d (base + 8) (high_8_of_12 (g 2))
  let d := wr d (base + 15) (low_8_of_12 (b 2))
  let d := wr d (base + 14) (swizzle_two_12 (r 3) (b 2))
  let d := wr d (base + 13) (high_8_of_12 (r 3))
  let d := wr d (base + 12) (low_8_of_12 (g 3))
  let d := wr d (base + 19) (swizzle_two_12 (b 3) (g 3))
  let d := wr d (base + 18) (high_8_of_12 (b 3))
  let d := wr d (base + 17) (low_8_of_12 (r 4))
  let d := wr d (base + 16) (swizzle_two_12 (g 4) (r 4))
  let d := wr d (base + 23) (high_8_of_12 (g 4))
  let d := wr d (base + 22) (low_8_of_12 (b 4))
  let d := wr d (base + 21) (swizzle_two_12 (r 5) (b 4))
  let d := wr d (base + 20) (high_8_of_12 (r 5))
  let d := wr d (base + 27) (low_8_of_12 (g 5))
  let d := wr d (base + 26) (swizzle_two_12 (b 5) (g 5))
  let d := wr d (base + 25) (high_8_of_12 (b 5))
  let d := wr d (base + 24) (low_8_of_12 (r 6))
  let d := wr d (base + 31) (swizzle_two_12 (g 6) (r 6))
  let d := wr d (base + 30) (high_8_of_12 (g 6))
  let d := wr d (base + 29) (low_8_of_12 (b 6))
  let d := wr d (base + 28) (swizzle_two_12 (r 7) (b 6))
  let d := wr d (base + 35) (high_8_of_12 (r 7))
  let d := wr d (base + 34) (low_8_of_12 (g 7))
  let d := wr d (base + 33) (swizzle_two_12 (b 7) (g 7))
  let d := wr d (base + 32) (high_8_of_12 (b 7))
  d

/-- `pack_12bpc_rgb_image` (pixel_packing.cpp lines 389-435): rows, then
pixel groups of 8 (`x += 8`); the group lands at `y*rowBytes + (x/8)*36`;
each of the 8 lanes is the clamped sample when `x+i < width` and zero
padding otherwise. -/
def pack_12bpc_rgb_image (dest : Store) (srcR srcG srcB : Nat → Nat)
    (width height rowBytes : Nat) : Store :=
  (List.range height).foldl (fun d y =>
    ((List.range ((width + 7) / 8)).map (fun i => 8 * i)).foldl (fun d x =>
      pack_8_12bpc_pixels_into_36_bytes d (y * rowBytes + (x / 8) * 36)
        (fun i => if x + i < width then min (srcR (y * width + (x + i))) 4095 else 0)
        (fun i => if x + i < width then min (srcG (y * width + (x + i))) 4095 else 0)
        (fun i => if x + i < width then min (srcB (y * width + (x + i))) 4095 else 0)) d) dest

/-- The `BMDPixelFormat` identifiers named in this repository
(decklink_wrapper.cpp, pixel_packing.cpp). -/
inductive BMDPixelFormat where
  | bmdFormat8BitYUV
  | bmdFormat10BitYUV
  | bmdFormat8BitARGB
  | bmdFormat8BitBGRA
  | bmdFormat10BitRGB
  | bmdFormat12BitRGB
  | bmdFormat12BitRGBLE
  | bmdFormat10BitRGBX
  | bmdFormat10BitRGBXLE
deriving DecidableEq

/-- `pack_pixel_format` (pixel_packing.cpp lines 437-512): splits the
interleaved source into three channel buffers (`srcData[i*3+c]`), then
switches on the format; the `default` arm returns `-8` without touching
the destination.  Note the `bmdFormat8BitYUV` arm calls
`pack_10bpc_yuv_image`, exactly as the source does. -/
def pack_pixel_format (dest : Store) (pixelFormat : BMDPixelFormat)
    (srcData : Nat → Nat) (width height rowBytes : Nat) : Int × Store :=
  let r : Nat → Nat := fun i => srcData (i * 3 + 0)
  let g : Nat → Nat := fun i => srcData (i * 3 + 1)
  let b : Nat → Nat := fun i => srcData (i * 3 + 2)
  match pixelFormat with
  | .bmdFormat8BitBGRA => (0, pack_8bpc_rgb_image dest r g b width height rowBytes true)
  | .bmdFormat8BitARGB => (0, pack_8bpc_rgb_image dest r g b width height rowBytes false)
  | .bmdFormat10BitRGB => (0, pack_10bpc_rgb_image dest r g b width height rowBytes)
  | .bmdFormat8BitYUV => (0, pack_10bpc_yuv_image dest r g b width height rowBytes)
  | .bmdFormat12BitRGB => (0, pack_12bpc_rgb_image dest r g b width height rowBytes)
  | _ => (-8, dest)

/-- The format identifiers with a registered packer arm in
`pack_pixel_format`'s switch. -/
def registeredFormats : List BMDPixelFormat :=
  [.bmdFormat8BitBGRA, .bmdFormat8BitARGB, .bmdFormat10BitRGB,
   .bmdFormat8BitYUV, .bmdFormat12BitRGB]

/-- `fill_12bit_rgb_frame` (draw_image.cpp lines 122-160): clamps the
triplet to 4095, builds three constant channel buffers and calls the
12-bit packer. -/
def fill_12bit_rgb_frame (frameData : Store) (width height rowBytes : Nat)
    (r g b : Nat) : Store :=
  pack_12bpc_rgb_image frameData (fun _ => min r 4095) (fun _ => min g 4095)
    (fun _ => min b 4095) width height rowBytes

/-- Modelled from the spec: read four consecutive bytes as one big-endian
32-bit word ("Three 10-bit unsigned components are packed into one 32-bit
big-endian word"). -/
def readBE32 (d : Store) (a : Nat) : Nat :=
  ((d a * 256 + d (a + 1)) * 256 + d (a + 2)) * 256 + d (a + 3)

/-- Modelled from the spec: unpack one pixel slot `i` (0..7) of a 36-byte
group at `base` per the documented SMPTE 268M Method C4 offsets — the
inverse of the documented 36-byte layout, reading `swizzle_two_12` bytes
as documented (`[A bits 3:0][B bits 11:8]`).  Returns `(r, g, b)`. -/
def unpack12_slot (d : Store) (base : Nat) (i : Nat) : Nat × Nat × Nat :=
  match i with
  | 0 => (((d (base + 2) &&& 0xF) <<< 8) ||| d (base + 3),
          (d (base + 1) <<< 4) ||| (d (base + 2) >>> 4),
          ((d (base + 7) &&& 0xF) <<< 8) ||| d (base + 0))
  | 1 => ((d (base + 6) <<< 4) ||| (d (base + 7) >>> 4),
          ((d (base + 4) &&& 0xF) <<< 8) ||| d (base + 5),
          (d (base + 11) <<< 4) ||| (d (base + 4) >>> 4))
  | 2 => (((d (base + 9) &&& 0xF) <<< 8) ||| d (base + 10),
          (d (base + 8) <<< 4) ||| (d (base + 9) >>> 4),
          ((d (base + 14) &&& 0xF) <<< 8) ||| d (base + 15))
  | 3 => ((d (base + 13) <<< 4) ||| (d (base + 14) >>> 4),
          ((d (base + 19) &&& 0xF) <<< 8) ||| d (base + 12),
          (d (base + 18) <<< 4) ||| (d (base + 19) >>> 4))
  | 4 => (((d (base + 16) &&& 0xF) <<< 8) ||| d (base + 17),
          (d (base + 23) <<< 4) ||| (d (base + 16) >>> 4),
          ((d (base + 21) &&& 0xF) <<< 8) ||| d (base + 22))
  | 5 => ((d (base + 20) <<< 4) ||| (d (base + 21) >>> 4),
          ((d (base + 26) &&& 0xF) <<< 8) ||| d (base + 27),
          (d (base + 25) <<< 4) ||| (d (base + 26) >>> 4))
  | 6 => (((d (base + 31) &&& 0xF) <<< 8) ||| d (base + 24),
          (d (base + 30) <<< 4) ||| (d (base + 31) >>> 4),
          ((d (base + 28) &&& 0xF) <<< 8) ||| d (base + 29))
  | _ => ((d (base + 35) <<< 4) ||| (d (base + 28) >>> 4),
          ((d (base + 33) &&& 0xF) <<< 8) ||| d (base + 34),
          (d (base + 32) <<< 4) ||| (d (base + 33) >>> 4))

/-- Modelled from the spec: unpack pixel `(y, x)` of a 12-bit frame with
the given row stride, locating its 8-pixel/36-byte group and slot. -/
def unpack12_pixel (d : Store) (rowBytes y x : Nat) : Nat × Nat × Nat :=
  unpack12_slot d (y * rowBytes + (x / 8) * 36) (x % 8)

/-- A 36-byte group input with a single component slot set: channel `c`
(0 = R, 1 = G, 2 = B) of pixel `i` holds `v`, all other slots hold 0. -/
def slotGroupPack (s : Nat × Nat) (v : Nat) : Store :=
  pack_8_12bpc_pixels_into_36_bytes (fun _ => 0) 0
    (fun i => if s.2 = 0 ∧ i = s.1 then v else 0)
    (fun i => if s.2 = 1 ∧ i = s.1 then v else 0)
    (fun i => if s.2 = 2 ∧ i = s.1 then v else 0)

/-- The 12 component slots (pixel index, channel) whose byte pair in the
36-byte group is (`low_8_of_12`, `swizzle_two_12` second argument):
R and B of even pixels, G of odd pixels. -/
def brokenSlots : List (Nat × Nat) :=
  [(0, 0), (0, 2), (1, 1), (2, 0), (2, 2), (3, 1),
   (4, 0), (4, 2), (5, 1), (6, 0), (6, 2), (7, 1)]

/-- Reading a byte other than the one written is unchanged. -/
theorem wr_apply_ne (d : Store) (a v p : Nat) (h : p ≠ a) : wr d a v p = d p :=
  if_neg h

/-- A 32-bit store touches only the four bytes at `a .. a+3`. -/
theorem wr32LE_apply_ne (d : Store) (a w p : Nat) (h : p < a ∨ a + 3 < p) :
    wr32LE d a w p = d p := by
  unfold wr32LE
  rw [wr_apply_ne, wr_apply_ne, wr_apply_ne, wr_apply_ne] <;> omega

/-- A fold of store updates leaves a byte unchanged when every single
step does. -/
theorem foldl_store_eq {α : Type} (g : Store → α → Store) (l : List α)
    (d : Store) (p : Nat) (h : ∀ d' a, a ∈ l → g d' a p = d' p) :
    l.foldl g d p = d p := by
  induction l generalizing d with
  | nil => rfl
  | cons a t ih =>
    rw [List.foldl_cons,
      ih (g d a) (fun d' x hx => h d' x (List.mem_cons_of_mem a hx)),
      h d a (List.mem_cons_self a t)]

/-- `low_8_of_12` is reduction modulo 256. -/
theorem low_8_of_12_eq (c : Nat) : low_8_of_12 c = c % 256 := by
  unfold low_8_of_12
  simpa using Nat.and_pow_two_sub_one_eq_mod c 8

/-- Masking with `0xF0` only sees the low byte. -/
theorem and_240_eq (b : Nat) : b &&& 240 = b % 256 &&& 240 := by
  have h := Nat.land_assoc b 255 240
  have h255 : b &&& 255 = b % 256 := by
    simpa using Nat.and_pow_two_sub_one_eq_mod b 8
  have h240 : (255 : Nat) &&& 240 = 240 := by decide
  rw [h255, h240] at h
  exact h.symm

/-- Dividing the low byte by 16 extracts bits 7:4. -/
theorem div16_mod_eq (v : Nat) : v % 256 / 16 = v / 16 % 16 := by
  rw [show (256 : Nat) = 16 * 16 from rfl]
  exact Nat.mod_mul_right_div_self v 16 16

set_option maxRecDepth 4000 in
/-- Arithmetic characterisation of `swizzle_two_12`: its high nibble is
`channelA mod 16` and its low nibble is bits 7:4 of `channelB`. -/
theorem swizzle_two_12_eq (a b : Nat) :
    swizzle_two_12 a b = a % 16 * 16 + b / 16 % 16 := by
  unfold swizzle_two_12
  have h1 : a &&& 0x0F = a % 16 := by
    simpa using Nat.and_pow_two_sub_one_eq_mod a 4
  have key : ∀ x < 256, ∀ y < 16,
      ((y <<< 4) ||| ((x &&& 240) >>> 4)) = y * 16 + x / 16 := by decide
  rw [h1, and_240_eq]
  have hk := key (b % 256) (Nat.mod_lt b (by norm_num))
    (a % 16) (Nat.mod_lt a (by norm_num))
  rw [hk, div16_mod_eq]

/-- `low_8_of_12` depends only on the low byte of its argument. -/
theorem low_8_of_12_mod (v : Nat) : low_8_of_12 (v % 256) = low_8_of_12 v := by
  rw [low_8_of_12_eq, low_8_of_12_eq, Nat.mod_mod_of_dvd v dvd_rfl]

/-- `swizzle_two_12` depends only on the low byte of its second argument. -/
theorem swizzle_two_12_mod (a v : Nat) :
    swizzle_two_12 a (v % 256) = swizzle_two_12 a v := by
  rw [swizzle_two_12_eq, swizzle_two_12_eq, div16_mod_eq,
    Nat.mod_mod_of_dvd (v / 16) dvd_rfl]

/-- Claim C1: the 12-bit pack→unpack round-trip fails on the code.
Packing an 8-pixel group with component slot (pixel 0, R) set to 256 and
every other slot 0, then unpacking per the documented SMPTE 268M Method C4
offsets, recovers (0, 0, 0) instead of R = 256: `swizzle_two_12` stores
bits 7:4 of its second argument where its own comment documents bits 11:8. -/
theorem C1_roundtrip_fails :
    unpack12_slot (pack_8_12bpc_pixels_into_36_bytes (fun _ => 0) 0
      (fun i => if i = 0 then 256 else 0) (fun _ => 0) (fun _ => 0)) 0 0
      = (0, 0, 0) ∧ (0 : Nat) ≠ 256 := by decide

/-- Claim C2: the 8-bit YUV packer does not produce U,Y0,V,Y1 per pixel
pair.  For a 2x1 frame with Y = [10, 20], U = 30, V = 40 and a destination
pre-filled with 170, the packer writes V (40) at byte 0 and Y0 (10) at
byte 1, and leaves bytes 2 and 3 untouched: the loop steps `x` by 2, so
the odd-pixel branch is dead and only two of each pair's four bytes are
ever written.  The claim expects bytes [30, 10, 40, 20]. -/
theorem C2_pair_layout_fails :
    (pack_8bpc_yuv_image (fun _ => 170) (fun i => if i = 0 then 10 else 20)
      (fun _ => 30) (fun _ => 40) 2 1 4) 0 = 40 ∧
    (pack_8bpc_yuv_image (fun _ => 170) (fun i => if i = 0 then 10 else 20)
      (fun _ => 30) (fun _ => 40) 2 1 4) 1 = 10 ∧
    (pack_8bpc_yuv_image (fun _ => 170) (fun i => if i = 0 then 10 else 20)
      (fun _ => 30) (fun _ => 40) 2 1 4) 2 = 170 ∧
    (pack_8bpc_yuv_image (fun _ => 170) (fun i => if i = 0 then 10 else 20)
      (fun _ => 30) (fun _ => 40) 2 1 4) 3 = 170 := by decide

/-- Claim C3: the 8-bit RGB packer wraps instead of saturating.  A 1x1
BGRA frame with R = 300 stores the red byte (memory offset 2) as
300 mod 256 = 44, not the claimed min(300, 255) = 255: the source reads
the samples into `uint8_t` locals, truncating them. -/
theorem C3_truncation_not_clamp :
    (pack_8bpc_rgb_image (fun _ => 170) (fun _ => 300) (fun _ => 0)
      (fun _ => 0) 1 1 4 true) 2 = 300 % 256 ∧
    300 % 256 = 44 ∧ (44 : Nat) ≠ 255 := by decide

/-- Claim C4: the dispatcher's `bmdFormat8BitYUV` arm invokes the 10-bit
YUV packer, not the 8-bit 4:2:2 one.  For a 2x1 frame whose first sample
triplet is (300, 0, 0), byte 1 of the output is 176 (low bits of
min(300, 1023) << 10), not the claimed clamp-to-255 value, and byte 4 is
overwritten with 0 although the claimed 2-pixels-per-4-bytes layout would
leave it at its initial 170. -/
theorem C4_yuv8_dispatch_wrong :
    ((pack_pixel_format (fun _ => 170) .bmdFormat8BitYUV
      (fun i => if i = 0 then 300 else 0) 2 1 8).2 1 = 176) ∧
    ((pack_pixel_format (fun _ => 170) .bmdFormat8BitYUV
      (fun i => if i = 0 then 300 else 0) 2 1 8).2 4 = 0) ∧
    (176 : Nat) ≠ 255 ∧ (0 : Nat) ≠ 170 := by decide

/-- Claim C5, counterexample: the 10-bit YUV identifier from the contract
table has no registered packer; the dispatcher returns the
unsupported-format error -8, not success. -/
theorem C5_10bitYUV_unregistered :
    (pack_pixel_format (fun _ => 0) .bmdFormat10BitYUV (fun _ => 0) 1 1 4).1
      = -8 ∧ ((-8 : Int) ≠ 0) := by decide

/-- Claim C5, amended: the dispatcher returns success exactly for the five
registered identifiers (8-bit BGRA, 8-bit ARGB, 8-bit YUV, 10-bit RGB,
12-bit RGB big-endian); the 10-bit YUV and 12-bit RGB little-endian
identifiers of the contract table hit the default arm and return -8. -/
theorem C5_registered_set (dest : Store) (src : Nat → Nat) (w h s : Nat) :
    (pack_pixel_format dest .bmdFormat8BitBGRA src w h s).1 = 0 ∧
    (pack_pixel_format dest .bmdFormat8BitARGB src w h s).1 = 0 ∧
    (pack_pixel_format dest .bmdFormat8BitYUV src w h s).1 = 0 ∧
    (pack_pixel_format dest .bmdFormat10BitRGB src w h s).1 = 0 ∧
    (pack_pixel_format dest .bmdFormat12BitRGB src w h s).1 = 0 ∧
    (pack_pixel_format dest .bmdFormat10BitYUV src w h s).1 = -8 ∧
    (pack_pixel_format dest .bmdFormat12BitRGBLE src w h s).1 = -8 :=
  ⟨rfl, rfl, rfl, rfl, rfl, rfl, rfl⟩

/-- Claim C6: for every identifier with no registered packer the
dispatcher returns the distinguished error -8 and leaves every byte of
the destination unchanged, and for every registered identifier it
returns success (0). -/
theorem C6_unsupported_no_write (fmt : BMDPixelFormat) (dest : Store)
    (src : Nat → Nat) (w h s : Nat) :
    (fmt ∉ registeredFormats →
      (pack_pixel_format dest fmt src w h s).1 = -8 ∧
      ∀ p, (pack_pixel_format dest fmt src w h s).2 p = dest p) ∧
    (fmt ∈ registeredFormats → (pack_pixel_format dest fmt src w h s).1 = 0) := by
  cases fmt <;>
    first
      | exact ⟨fun hn => absurd (by decide) hn, fun _ => rfl⟩
      | exact ⟨fun _ => ⟨rfl, fun _ => rfl⟩, fun hm => absurd hm (by decide)⟩

/-- Witness for C6 at concrete inputs: the unregistered `10BitRGBX`
identifier yields -8 and leaves byte 7 at its initial value 170, while
the registered `8BitBGRA` identifier yields 0. -/
theorem C6_unsupported_no_write_witness :
    (pack_pixel_format (fun _ => 170) .bmdFormat10BitRGBX (fun _ => 0) 1 1 4).1
      = -8 ∧
    (pack_pixel_format (fun _ => 170) .bmdFormat10BitRGBX (fun _ => 0) 1 1 4).2 7
      = 170 ∧
    (pack_pixel_format (fun _ => 170) .bmdFormat8BitBGRA (fun _ => 0) 1 1 4).1
      = 0 := by
  refine ⟨((C6_unsupported_no_write _ _ _ 1 1 4).1 (by decide)).1,
    ((C6_unsupported_no_write _ _ _ 1 1 4).1 (by decide)).2 7,
    (C6_unsupported_no_write _ _ _ 1 1 4).2 (by decide)⟩

/-- Claim C7: the solid-fill round-trip fails on the code.  Filling a 4x4
frame with (4095, 2048, 0) in the 12-bit big-endian format and unpacking
per the documented offsets recovers (4095, 2048, 0) at pixel 0 but
(4095, 0, 0) at pixel 1: the G channel of odd pixels loses its bits 11:8
to the `swizzle_two_12` defect, so the 16 triplets are not identical. -/
theorem C7_solid_fill_fails :
    unpack12_pixel (fill_12bit_rgb_frame (fun _ => 0) 4 4 36 4095 2048 0)
      36 0 0 = (4095, 2048, 0) ∧
    unpack12_pixel (fill_12bit_rgb_frame (fun _ => 0) 4 4 36 4095 2048 0)
      36 0 1 = (4095, 0, 0) ∧
    ((4095, 0, 0) : Nat × Nat × Nat) ≠ (4095, 2048, 0) := by decide

/-- Claim C8: the 10-bit RGB packer drops B bits 7:4.  A single pixel
R = 0, G = 0, B = 16 packs to a word that reads back as 0 big-endian
(bits 9:0 should be 16): the source masks with `b & 0x000F` where the
layout requires `b & 0x00FF`.  The spec's own example R = 1023, G = 512,
B = 0 does hold, because it has B = 0. -/
theorem C8_b_bits_dropped :
    readBE32 (pack_10bpc_rgb_image (fun _ => 0) (fun _ => 0) (fun _ => 0)
      (fun _ => 16) 1 1 4) 0 = 0 ∧
    (0 : Nat) ≠ 16 ∧
    readBE32 (pack_10bpc_rgb_image (fun _ => 0) (fun _ => 1023)
      (fun _ => 512) (fun _ => 0) 1 1 4) 0 = 1023 * 2 ^ 20 + 512 * 2 ^ 10 := by
  decide

/-- Claim C9, counterexample to the claim as stated: with width 1, height
2 and row-stride 6 (which satisfies S ≥ 4·W), the packer changes the byte
of row 0 at offset 4 ≥ 4·W from the row start: it addresses rows as
`y*(rowBytes/4)` 32-bit words, so a stride that is not a multiple of 4
makes later rows start inside earlier rows' padding. -/
theorem C9_stride6_writes_padding :
    4 * 1 ≤ 4 ∧ 4 < 6 ∧
    pack_10bpc_rgb_image (fun _ => 170) (fun _ => 0) (fun _ => 0)
      (fun _ => 0) 1 2 6 (0 * 6 + 4) ≠ 170 := by decide

/-- Claim C9, amended: for the 10-bit RGB packer with any width `W` and
any row-stride `S ≥ 4·W` that is a multiple of 4, every destination byte
in a row at offset ≥ 4·W from the row start is left unchanged, for every
row. -/
theorem C9_padding_mod4_untouched (dest : Store) (srcR srcG srcB : Nat → Nat)
    (W H S y o : Nat) (h4 : 4 ∣ S) (hlo : 4 * W ≤ o) (hhi : o < S) :
    pack_10bpc_rgb_image dest srcR srcG srcB W H S (y * S + o)
      = dest (y * S + o) := by
  obtain ⟨s, rfl⟩ := h4
  unfold pack_10bpc_rgb_image
  apply foldl_store_eq
  intro d1 yy _
  apply foldl_store_eq
  intro d2 x hx
  have hx' : x < W := List.mem_range.mp hx
  unfold pack10_pixel_write
  have hs4 : 4 * s / 4 = s := by omega
  rw [hs4]
  apply wr32LE_apply_ne
  rcases Nat.lt_trichotomy yy y with hlt | heq | hgt
  · right
    calc 4 * (yy * s + x) + 3
        = 4 * (yy * s) + (4 * x + 3) := by ring
      _ < 4 * (yy * s) + 4 * s := Nat.add_lt_add_left (by omega) _
      _ = (yy + 1) * (4 * s) := by ring
      _ ≤ y * (4 * s) := Nat.mul_le_mul_right _ hlt
      _ ≤ y * (4 * s) + o := Nat.le_add_right _ _
  · subst heq
    right
    calc 4 * (yy * s + x) + 3
        = 4 * (yy * s) + (4 * x + 3) := by ring
      _ < 4 * (yy * s) + o := Nat.add_lt_add_left (by omega) _
      _ = yy * (4 * s) + o := by ring
  · left
    calc y * (4 * s) + o
        < y * (4 * s) + 4 * s := Nat.add_lt_add_left hhi _
      _ = (y + 1) * (4 * s) := by ring
      _ ≤ yy * (4 * s) := Nat.mul_le_mul_right _ hgt
      _ = 4 * (yy * s) := by ring
      _ ≤ 4 * (yy * s + x) := Nat.mul_le_mul_left _ (Nat.le_add_right _ _)

/-- Witness for C9 at the spec's own example: width 65, stride 512, row 1,
offset 260 = 4·65; the byte keeps its initial value 170. -/
theorem C9_padding_mod4_untouched_witness :
    pack_10bpc_rgb_image (fun _ => 170) (fun _ => 0) (fun _ => 0)
      (fun _ => 0) 65 2 512 (1 * 512 + 260) = 170 :=
  C9_padding_mod4_untouched (fun _ => 170) (fun _ => 0) (fun _ => 0)
    (fun _ => 0) 65 2 512 1 260 (by decide) (by decide) (by decide)

/-- Claim C10: `swizzle_two_12 A B = (A mod 16)·16 + (B / 16 mod 16)` for
all inputs — its low nibble is bits 7:4 of B, not bits 11:8 — and
consequently, for each of the 12 component slots whose high nibble goes
through `swizzle_two_12` as second argument (R and B of even pixels, G of
odd pixels), the packed 36-byte group depends on the slot's value only
through its low byte: bits 11:8 are never written. -/
theorem C10_swizzle_behavior :
    (∀ A B, swizzle_two_12 A B = A % 16 * 16 + B / 16 % 16) ∧
    (∀ s ∈ brokenSlots, ∀ v, slotGroupPack s v = slotGroupPack s (v % 256)) := by
  refine ⟨swizzle_two_12_eq, ?_⟩
  intro s hs v
  have hl := low_8_of_12_mod v
  have hsw := swizzle_two_12_mod 0 v
  simp only [brokenSlots, List.mem_cons, List.not_mem_nil, or_false] at hs
  rcases hs with rfl | rfl | rfl | rfl | rfl | rfl | rfl | rfl | rfl | rfl | rfl | rfl <;>
    (simp only [slotGroupPack, pack_8_12bpc_pixels_into_36_bytes]
     norm_num
     rw [hl, hsw])

/-- Witness for C10 at a concrete slot and value: slot (pixel 0, R) with
v = 300 packs to the same 36 bytes as v = 300 mod 256 = 44. -/
theorem C10_swizzle_behavior_witness :
    slotGroupPack (0, 0) 300 = slotGroupPack (0, 0) 44 := by
  have h := C10_swizzle_behavior.2 (0, 0) (by decide) 300
  simpa using h
